import Mathlib

/-!
# Verification of `src/script.js` (Sustenta Futuro landing page scripts)

A shallow embedding of the five front-end components of `src/script.js`:
the navbar scroll watcher (`initNavbar`), the reveal-on-scroll observer
(`initScrollAnimations`), the counter animator (`animateCounter` / `update`),
the mobile menu toggle (`initMobileMenu`), and the contact form handler
(`handleFormSubmit`).

Browser quantities are modelled exactly: pixel offsets and millisecond
timestamps as `ℚ`, DOM class flags as `Bool` fields of per-component state
structures, the JS number `NaN` as `none : Option _`, and `Math.round` as
Mathlib's `round` (both round halves toward positive infinity).  Event-driven
callbacks become explicit transition functions applied to injected event data.
-/

/-! ## Navbar watcher (`initNavbar`, src/script.js lines 27-37) -/

/-- Display state of the navigation bar: whether the CSS class `scrolled`
is currently present on the `#navbar` element. -/
structure NavbarState where
  scrolled : Bool
  deriving DecidableEq, Repr

/-- The scroll handler body (line 32):
`navbar.classList.toggle('scrolled', window.scrollY > 60)`.
`window.scrollY` is the vertical scroll offset in pixels. -/
def onScroll (scrollY : ℚ) (_s : NavbarState) : NavbarState :=
  { scrolled := decide (scrollY > 60) }

/-! ## Counter easing (`animateCounter`, src/script.js lines 100-105) -/

/-- Line 104: `const easedProgress = 1 - Math.pow(1 - progress, 3)` —
the cubic ease-out curve applied to the progress ratio. -/
def easedProgress (p : ℚ) : ℚ :=
  1 - (1 - p) ^ 3

/-! ## Mobile menu (`initMobileMenu`, src/script.js lines 121-138) -/

/-- Display state of the mobile menu: the `active` class on the `#navToggle`
control and the `open` class on the `#navLinks` panel. -/
structure MenuState where
  toggleActive : Bool
  panelOpen : Bool
  deriving DecidableEq, Repr

/-- Click handler on the toggle control (lines 126-129): flips both classes
(`toggle.classList.toggle('active')`; `links.classList.toggle('open')`). -/
def clickToggle (s : MenuState) : MenuState :=
  { toggleActive := !s.toggleActive, panelOpen := !s.panelOpen }

/-- Click handler on a navigation link (lines 132-137): removes both classes. -/
def clickNavLink (_s : MenuState) : MenuState :=
  { toggleActive := false, panelOpen := false }

/-! ## Reveal-on-scroll (`initScrollAnimations`, src/script.js lines 44-61) -/

/-- One entry delivered to the IntersectionObserver callback: the observed
target element (identified by a number) and its `isIntersecting` flag. -/
structure IntersectionEntry where
  target : ℕ
  isIntersecting : Bool
  deriving DecidableEq, Repr

/-- State of the reveal feature: the elements still observed, the elements
carrying the `visible` class, and a log recording each invocation of the
reveal logic (lines 51-52) by its target. -/
structure RevealState where
  observed : List ℕ
  visible : List ℕ
  invocations : List ℕ
  deriving DecidableEq, Repr

/-- Processing of a single entry by the observer callback (lines 49-54):
if the entry is intersecting, add the `visible` class and unobserve the
target.  The outer membership test models the IntersectionObserver delivery
guarantee — an external collaborator per the spec — that entries are
delivered only for currently observed targets, so after
`observer.unobserve(entry.target)` no entry for that target reaches the
callback body. -/
def processEntry (s : RevealState) (e : IntersectionEntry) : RevealState :=
  if e.target ∈ s.observed then
    if e.isIntersecting then
      { observed := s.observed.erase e.target
        visible := e.target :: s.visible
        invocations := e.target :: s.invocations }
    else s
  else s

/-- A sequence of entry deliveries, in order. -/
def processEntries (s : RevealState) (es : List IntersectionEntry) : RevealState :=
  es.foldl processEntry s

/-- `initScrollAnimations` (lines 44-61): collects the `.animate-on-scroll`
elements; if the collection is empty it returns early (line 46) creating no
observer, otherwise it observes every element (line 60). -/
def initScrollAnimations (elements : List ℕ) : Except String (Option RevealState) :=
  if elements.isEmpty then Except.ok none
  else Except.ok (some { observed := elements, visible := [], invocations := [] })

/-- Invariant of the reveal state for a fixed element `x`: the observed list
has no duplicates, the reveal logic ran at most once for `x`, and it never
ran for `x` while `x` is still observed. -/
def RevealInv (x : ℕ) (s : RevealState) : Prop :=
  s.observed.Nodup ∧ s.invocations.count x ≤ 1
    ∧ (x ∈ s.observed → s.invocations.count x = 0)

/-! ## Counter animation (`animateCounter` / `update`, src/script.js lines 94-115) -/

/-- Line 95: `const duration = 2000` (milliseconds). -/
def duration : ℚ := 2000

/-- Lines 100-101: `const elapsed = currentTime - startTime;
const progress = Math.min(elapsed / duration, 1)`. -/
def progress (startTime currentTime : ℚ) : ℚ :=
  min ((currentTime - startTime) / duration) 1

/-- Line 105: `const current = Math.round(easedProgress * target)`,
as a function of the progress ratio `p`. -/
def displayedValue (target : ℤ) (p : ℚ) : ℤ :=
  round (easedProgress p * target)

/-- One frame of `update` (lines 99-112): the integer written to
`element.textContent` and whether a further frame is scheduled
(line 109: `if (progress < 1)`). -/
def update (target : ℤ) (startTime currentTime : ℚ) : ℤ × Bool :=
  (displayedValue target (progress startTime currentTime),
    decide (progress startTime currentTime < 1))

/-- Frame `n` of the loop runs iff every earlier frame still saw
`progress < 1`: `animateCounter` schedules frame 0 unconditionally
(line 114) and frame `m` schedules frame `m + 1` iff its own progress is
below 1 (lines 109-111). `ts m` is the timestamp handed to frame `m`. -/
def frameRuns (startTime : ℚ) (ts : ℕ → ℚ) (n : ℕ) : Prop :=
  ∀ m, m < n → progress startTime (ts m) < 1

/-! ## NaN-aware arithmetic for the target attribute (lines 94, 104-107) -/

/-- Value of a run of decimal digit characters. -/
def digitsValue (cs : List Char) : ℕ :=
  cs.foldl (fun a c => 10 * a + (c.toNat - 48)) 0

/-- The value of the leading decimal digits of a character list; `none` when
there is no leading digit. -/
def leadingDigits (cs : List Char) : Option ℕ :=
  let ds := cs.takeWhile Char.isDigit
  if ds.isEmpty then none else some (digitsValue ds)

/-- JS `parseInt(s, 10)`: skip leading whitespace, accept an optional sign,
then read leading decimal digits; no digits yields NaN, modelled `none`. -/
def parseIntBase10 (s : String) : Option ℤ :=
  match s.toList.dropWhile Char.isWhitespace with
  | '-' :: rest => (leadingDigits rest).map (fun n => -(n : ℤ))
  | '+' :: rest => (leadingDigits rest).map (fun n => (n : ℤ))
  | rest => (leadingDigits rest).map (fun n => (n : ℤ))

/-- Line 94: `parseInt(element.getAttribute('data-target'), 10)`.  A missing
attribute makes `getAttribute` return null, which `parseInt` coerces to the
string "null": no digits, hence NaN. -/
def parseTargetAttr (attr : Option String) : Option ℤ :=
  match attr with
  | none => none
  | some s => parseIntBase10 s

/-- JS multiplication, propagating NaN (`none`). -/
def jsMul (a b : Option ℚ) : Option ℚ :=
  match a, b with
  | some x, some y => some (x * y)
  | _, _ => none

/-- `Math.round`, propagating NaN. -/
def jsRound (a : Option ℚ) : Option ℤ :=
  a.map round

/-- Stringification performed by `element.textContent = current` (line 107):
the JS number NaN renders as the text "NaN". -/
def jsNumToString (a : Option ℤ) : String :=
  match a with
  | none => "NaN"
  | some n => toString n

/-- The text one frame of `update` writes when the parsed target may be NaN
(lines 104-107): `Math.round(easedProgress * target)` stringified. -/
def frameText (target : Option ℤ) (p : ℚ) : String :=
  jsNumToString (jsRound (jsMul (some (easedProgress p))
    (target.map (fun n => (n : ℚ)))))

/-! ## Initialization guards (src/script.js lines 28-29, 45-46, 69-70, 122-124, 153-156) -/

/-- `initNavbar` (lines 27-37): returns early when `#navbar` is missing;
otherwise installs the scroll listener and runs the handler once. -/
def initNavbar (navbar : Option NavbarState) (scrollY : ℚ) :
    Except String (Option NavbarState) :=
  match navbar with
  | none => Except.ok none
  | some nb => Except.ok (some (onScroll scrollY nb))

/-- Observation set created by `initCounterAnimations` (lines 68-84). -/
structure CounterObserver where
  observed : List ℕ
  deriving DecidableEq, Repr

/-- `initCounterAnimations` (lines 68-84): returns early when the
`.stat-number[data-target]` collection is empty; otherwise observes each
counter element. -/
def initCounterAnimations (counters : List ℕ) :
    Except String (Option CounterObserver) :=
  if counters.isEmpty then Except.ok none
  else Except.ok (some { observed := counters })

/-- `initMobileMenu` (lines 121-138): returns early when `#navToggle` or
`#navLinks` is missing; otherwise attaches the click handlers (flag `true`)
without touching the current class state. -/
def initMobileMenu (toggle links : Option Unit) (s : MenuState) :
    Except String (MenuState × Bool) :=
  match toggle, links with
  | some _, some _ => Except.ok (s, true)
  | _, _ => Except.ok (s, false)

/-! ## Contact form handler (`handleFormSubmit`, src/script.js lines 150-177) -/

/-- The `#submitBtn` element: its text and the pieces of state the handler
touches (`disabled`, inline `opacity`, inline `background`; the empty string
is an unset inline style). -/
structure SubmitButton where
  text : String
  disabled : Bool
  styleOpacity : String
  styleBackground : String
  deriving DecidableEq, Repr

/-- The `#contactForm` element: the values of its input fields. -/
structure ContactForm where
  fields : List String
  deriving DecidableEq, Repr

/-- The page state the form handler manipulates. -/
structure FormPage where
  btn : SubmitButton
  form : ContactForm
  deriving DecidableEq, Repr

/-- Immediate effect of submission (lines 158-161). -/
def sendingStep (p : FormPage) : FormPage :=
  { p with btn := { p.btn with
      text := "Enviando...", disabled := true, styleOpacity := "0.7" } }

/-- First timer callback, 1200 ms after submission (lines 164-169);
`form.reset()` clears every input field. -/
def sentStep (p : FormPage) : FormPage :=
  { btn := { p.btn with
      text := "✅ Mensaje Enviado"
      styleBackground := "linear-gradient(135deg, #4CAF50, #388E3C)"
      styleOpacity := "1" }
    form := { fields := p.form.fields.map (fun _ => "") } }

/-- Second timer callback, 3000 ms after the first (lines 171-175). -/
def idleStep (p : FormPage) : FormPage :=
  { p with btn := { p.btn with
      text := "Enviar Mensaje", disabled := false, styleBackground := "" } }

/-- The page state `t` ms after submission with both elements present:
sending until 1200 ms, sent until 1200 + 3000 ms, reverted thereafter. -/
def handleFormSubmit (p : FormPage) (t : ℚ) : FormPage :=
  if t < 1200 then sendingStep p
  else if t < 1200 + 3000 then sentStep (sendingStep p)
  else idleStep (sentStep (sendingStep p))

/-- The guard of `handleFormSubmit` (lines 153-156): when `#submitBtn` or
`#contactForm` is missing the handler returns early, changing nothing.
(`event.preventDefault()` on line 151 affects only the transient event
object, not the page state modelled here.) -/
def handleFormSubmitGuarded (btn : Option SubmitButton)
    (form : Option ContactForm) (t : ℚ) :
    Except String (Option SubmitButton × Option ContactForm) :=
  match btn, form with
  | some b, some f =>
      Except.ok (some (handleFormSubmit ⟨b, f⟩ t).btn,
        some (handleFormSubmit ⟨b, f⟩ t).form)
  | _, _ => Except.ok (btn, form)

/-! ## Theorems -/

/-- C1: after the scroll handler runs, the navbar's scrolled state is true
exactly when the vertical offset exceeds 60 px; an offset of exactly 60 yields
false; and the handler is idempotent at any fixed offset. -/
theorem navbar_scrolled_iff_offset_gt_60 (y : ℚ) (s : NavbarState) :
    ((onScroll y s).scrolled = true ↔ y > 60)
    ∧ (onScroll 60 s).scrolled = false
    ∧ onScroll y (onScroll y s) = onScroll y s := by
  refine ⟨?_, ?_, rfl⟩
  · simp [onScroll]
  · simp [onScroll]

/-- C3: the counter animator's easing function is the cubic ease-out
`e p = 1 - (1 - p)^3`; in particular `e (1/2) = 0.875`, `e 0 = 0`,
and `e 1 = 1`. -/
theorem easedProgress_is_cubic_ease_out :
    easedProgress (1 / 2) = 875 / 1000
    ∧ easedProgress 0 = 0
    ∧ easedProgress 1 = 1 := by
  norm_num [easedProgress]

/-- C6: a single click on the mobile menu toggle flips both the toggle's
active state and the panel's open state; two consecutive clicks restore any
starting state, and in particular restore the closed state. -/
theorem menu_double_click_restores_state (s : MenuState) :
    clickToggle (clickToggle s) = s
    ∧ (clickToggle s).toggleActive = !s.toggleActive
    ∧ (clickToggle s).panelOpen = !s.panelOpen
    ∧ clickToggle (clickToggle { toggleActive := false, panelOpen := false }) =
        { toggleActive := false, panelOpen := false } := by
  cases s
  simp [clickToggle]

/-- Processing one entry preserves the reveal invariant. -/
lemma processEntry_inv {x : ℕ} {s : RevealState} (h : RevealInv x s)
    (e : IntersectionEntry) : RevealInv x (processEntry s e) := by
  obtain ⟨hnd, hle, hmem⟩ := h
  unfold processEntry
  split
  · split
    · rename_i hobs _
      refine ⟨hnd.erase _, ?_, ?_⟩
      · by_cases hx : x = e.target
        · subst hx
          simp [List.count_cons, hmem hobs]
        · simpa [List.count_cons, hx] using hle
      · intro hx
        have hxobs : x ∈ s.observed := List.mem_of_mem_erase hx
        by_cases hxe : x = e.target
        · subst hxe
          exact absurd hx (hnd.not_mem_erase)
        · simpa [List.count_cons, hxe] using hmem hxobs
    · exact ⟨hnd, hle, hmem⟩
  · exact ⟨hnd, hle, hmem⟩

/-- Processing any sequence of entries preserves the reveal invariant. -/
lemma processEntries_inv {x : ℕ} {s : RevealState} (h : RevealInv x s)
    (es : List IntersectionEntry) : RevealInv x (processEntries s es) := by
  induction es generalizing s with
  | nil => exact h
  | cons e es ih => exact ih (processEntry_inv h e)

/-- The `visible` class, once present, survives any single entry. -/
lemma processEntry_visible_mono {x : ℕ} {s : RevealState} (h : x ∈ s.visible)
    (e : IntersectionEntry) : x ∈ (processEntry s e).visible := by
  unfold processEntry
  split
  · split
    · exact List.mem_cons_of_mem _ h
    · exact h
  · exact h

/-- The `visible` class, once present, survives any sequence of entries. -/
lemma processEntries_visible_mono {x : ℕ} {s : RevealState} (h : x ∈ s.visible)
    (es : List IntersectionEntry) : x ∈ (processEntries s es).visible := by
  induction es generalizing s with
  | nil => exact h
  | cons e es ih => exact ih (processEntry_visible_mono h e)

/-- C2: starting from the state built by `initScrollAnimations` on a
duplicate-free element collection, under any sequence of intersection events
the reveal logic runs at most once per element, and an element visible after
a prefix of the events is still visible after the whole sequence (elements
never revert to hidden). -/
theorem reveal_at_most_once (elements : List ℕ) (hnd : elements.Nodup)
    (s0 : RevealState) (h0 : initScrollAnimations elements = Except.ok (some s0))
    (pre suf : List IntersectionEntry) (x : ℕ) :
    (processEntries s0 (pre ++ suf)).invocations.count x ≤ 1
    ∧ (x ∈ (processEntries s0 pre).visible →
        x ∈ (processEntries s0 (pre ++ suf)).visible) := by
  have hs0 : s0 = { observed := elements, visible := [], invocations := [] } := by
    unfold initScrollAnimations at h0
    split at h0
    · simp at h0
    · simpa using h0.symm
  have hinv : RevealInv x s0 := by
    rw [hs0]
    exact ⟨hnd, by simp, fun _ => by simp⟩
  refine ⟨(processEntries_inv hinv (pre ++ suf)).2.1, fun hx => ?_⟩
  have hsplit : processEntries s0 (pre ++ suf) =
      processEntries (processEntries s0 pre) suf := by
    simp [processEntries, List.foldl_append]
  rw [hsplit]
  exact processEntries_visible_mono hx suf

/-- C2 witness: two elements, the first intersecting twice. -/
theorem reveal_at_most_once_witness :
    ([1, 2] : List ℕ).Nodup
    ∧ initScrollAnimations [1, 2] =
        Except.ok (some { observed := [1, 2], visible := [], invocations := [] })
    ∧ ((processEntries { observed := [1, 2], visible := [], invocations := [] }
          ([⟨1, true⟩] ++ [⟨1, true⟩, ⟨2, true⟩])).invocations.count 1 ≤ 1
      ∧ (1 ∈ (processEntries { observed := [1, 2], visible := [], invocations := [] }
            [⟨1, true⟩]).visible →
          1 ∈ (processEntries { observed := [1, 2], visible := [], invocations := [] }
            ([⟨1, true⟩] ++ [⟨1, true⟩, ⟨2, true⟩])).visible)) :=
  ⟨by decide, rfl,
    reveal_at_most_once [1, 2] (by decide)
      { observed := [1, 2], visible := [], invocations := [] } rfl
      [⟨1, true⟩] [⟨1, true⟩, ⟨2, true⟩] 1⟩

/-- `Math.round` is monotone (both on `ℚ` and in JS for non-NaN inputs). -/
lemma round_mono_rat {x y : ℚ} (h : x ≤ y) : round x ≤ round y := by
  rw [round_eq, round_eq]
  exact Int.floor_le_floor (by linarith)

/-- The cubic ease-out curve is monotone non-decreasing. -/
lemma easedProgress_mono {p q : ℚ} (h : p ≤ q) :
    easedProgress p ≤ easedProgress q := by
  unfold easedProgress
  nlinarith [sq_nonneg ((1 - p) + (1 - q)), sq_nonneg ((1 - p) - (1 - q))]

/-- The displayed value is monotone in the progress ratio for a non-negative
target. -/
lemma displayedValue_mono {t : ℤ} (ht : 0 ≤ t) {p q : ℚ} (h : p ≤ q) :
    displayedValue t p ≤ displayedValue t q := by
  unfold displayedValue
  have htq : (0 : ℚ) ≤ (t : ℚ) := by exact_mod_cast ht
  exact round_mono_rat (mul_le_mul_of_nonneg_right (easedProgress_mono h) htq)

/-- The progress ratio is monotone in the current timestamp. -/
lemma progress_mono (startTime : ℚ) {a b : ℚ} (h : a ≤ b) :
    progress startTime a ≤ progress startTime b := by
  unfold progress duration
  exact min_le_min (by linarith) le_rfl

/-- At progress 0 the displayed value is 0. -/
lemma displayedValue_zero (t : ℤ) : displayedValue t 0 = 0 := by
  norm_num [displayedValue, easedProgress]

/-- At progress 1 the displayed value is exactly the target. -/
lemma displayedValue_one (t : ℤ) : displayedValue t 1 = t := by
  norm_num [displayedValue, easedProgress]

/-- Once the elapsed time reaches the 2000 ms duration, the clamped progress
ratio is exactly 1. -/
lemma progress_eq_one {startTime c : ℚ} (h : duration ≤ c - startTime) :
    progress startTime c = 1 := by
  unfold progress duration at *
  exact min_eq_right ((le_div_iff₀ (by norm_num)).mpr (by linarith))

/-- C4: the update loop terminates.  Once the elapsed time reaches the
2000 ms duration the clamped progress ratio is 1; a frame at progress 1
schedules no further frame and displays exactly the target; and for frame
timestamps that strictly increase without bound only finitely many frames
run. -/
theorem counter_loop_terminates (startTime : ℚ) (ts : ℕ → ℚ) (t : ℤ)
    (_hmono : ∀ n, ts n < ts (n + 1)) (hub : ∀ B : ℚ, ∃ n, B < ts n) :
    (∀ n, duration ≤ ts n - startTime → progress startTime (ts n) = 1)
    ∧ (∀ n, progress startTime (ts n) = 1 →
        (update t startTime (ts n)).2 = false
          ∧ ¬ frameRuns startTime ts (n + 1))
    ∧ (∀ n, progress startTime (ts n) = 1 →
        (update t startTime (ts n)).1 = t)
    ∧ ∃ N, ∀ n, N ≤ n → ¬ frameRuns startTime ts n := by
  refine ⟨fun n hn => progress_eq_one hn, fun n hp => ⟨?_, ?_⟩,
    fun n hp => ?_, ?_⟩
  · simp [update, hp]
  · intro hfr
    have h2 := hfr n (Nat.lt_succ_self n)
    rw [hp] at h2
    exact lt_irrefl 1 h2
  · simp [update, hp, displayedValue_one]
  · obtain ⟨n0, hn0⟩ := hub (startTime + duration)
    refine ⟨n0 + 1, fun n hn hfr => ?_⟩
    have h1 : progress startTime (ts n0) = 1 := progress_eq_one (by linarith)
    have h2 := hfr n0 (by omega)
    rw [h1] at h2
    exact lt_irrefl 1 h2

/-- C4 witness: frames every 2000 ms starting at time 0, target 100. -/
theorem counter_loop_terminates_witness :
    (∀ n : ℕ, (fun k : ℕ => (k : ℚ) * 2000) n < (fun k : ℕ => (k : ℚ) * 2000) (n + 1))
    ∧ (∀ B : ℚ, ∃ n, B < (fun k : ℕ => (k : ℚ) * 2000) n)
    ∧ ((∀ n, duration ≤ (fun k : ℕ => (k : ℚ) * 2000) n - 0 →
          progress 0 ((fun k : ℕ => (k : ℚ) * 2000) n) = 1)
      ∧ (∀ n, progress 0 ((fun k : ℕ => (k : ℚ) * 2000) n) = 1 →
          (update 100 0 ((fun k : ℕ => (k : ℚ) * 2000) n)).2 = false
            ∧ ¬ frameRuns 0 (fun k : ℕ => (k : ℚ) * 2000) (n + 1))
      ∧ (∀ n, progress 0 ((fun k : ℕ => (k : ℚ) * 2000) n) = 1 →
          (update 100 0 ((fun k : ℕ => (k : ℚ) * 2000) n)).1 = 100)
      ∧ ∃ N, ∀ n, N ≤ n → ¬ frameRuns 0 (fun k : ℕ => (k : ℚ) * 2000) n) := by
  have hmono : ∀ n : ℕ,
      (fun k : ℕ => (k : ℚ) * 2000) n < (fun k : ℕ => (k : ℚ) * 2000) (n + 1) := by
    intro n
    show (n : ℚ) * 2000 < ((n + 1 : ℕ) : ℚ) * 2000
    push_cast
    linarith
  have hub : ∀ B : ℚ, ∃ n, B < (fun k : ℕ => (k : ℚ) * 2000) n := by
    intro B
    obtain ⟨n, hn⟩ := exists_nat_gt B
    refine ⟨n, ?_⟩
    show B < (n : ℚ) * 2000
    have h0 : (0 : ℚ) ≤ (n : ℚ) := by positivity
    nlinarith
  exact ⟨hmono, hub,
    counter_loop_terminates 0 (fun k : ℕ => (k : ℚ) * 2000) 100 hmono hub⟩

/-- C5: for a non-negative target and monotone frame timestamps, the sequence
of displayed values is monotone non-decreasing; the displayed value is 0 at
progress 0 and the target at progress 1. -/
theorem counter_display_monotone (t : ℤ) (ht : 0 ≤ t) (startTime : ℚ)
    (ts : ℕ → ℚ) (hmono : Monotone ts) (m n : ℕ) (hmn : m ≤ n) :
    (update t startTime (ts m)).1 ≤ (update t startTime (ts n)).1
    ∧ displayedValue t 0 = 0
    ∧ displayedValue t 1 = t := by
  refine ⟨?_, displayedValue_zero t, displayedValue_one t⟩
  exact displayedValue_mono ht (progress_mono startTime (hmono hmn))

/-- C5 witness: target 100, frame timestamps the natural numbers. -/
theorem counter_display_monotone_witness :
    (0 : ℤ) ≤ 100 ∧ Monotone (fun k : ℕ => (k : ℚ)) ∧ (0 : ℕ) ≤ 1
    ∧ ((update 100 0 ((fun k : ℕ => (k : ℚ)) 0)).1 ≤
        (update 100 0 ((fun k : ℕ => (k : ℚ)) 1)).1
      ∧ displayedValue 100 0 = 0
      ∧ displayedValue 100 1 = 100) := by
  have hm : Monotone (fun k : ℕ => (k : ℚ)) := by
    intro a b h
    show (a : ℚ) ≤ (b : ℚ)
    exact_mod_cast h
  exact ⟨by decide, hm, by decide,
    counter_display_monotone 100 (by decide) 0 (fun k : ℕ => (k : ℚ)) hm 0 1
      (by decide)⟩

/-- C7: submission timeline.  Immediately (before 1200 ms) the button reads
"Enviando...", is disabled, with reduced opacity; from 1200 ms the text is the
success indicator, the background the success gradient, opacity restored, and
every form field cleared; from 4200 ms the text reverts, the button is
re-enabled, and the inline background is cleared.  The handler is total: no
failure path exists. -/
theorem form_submit_timeline (p : FormPage) (t1 t2 t3 : ℚ)
    (_h1a : 0 ≤ t1) (h1b : t1 < 1200) (h2a : 1200 ≤ t2) (h2b : t2 < 4200)
    (h3 : 4200 ≤ t3) :
    ((handleFormSubmit p t1).btn.text = "Enviando..."
      ∧ (handleFormSubmit p t1).btn.disabled = true
      ∧ (handleFormSubmit p t1).btn.styleOpacity = "0.7")
    ∧ ((handleFormSubmit p t2).btn.text = "✅ Mensaje Enviado"
      ∧ (handleFormSubmit p t2).btn.styleBackground =
          "linear-gradient(135deg, #4CAF50, #388E3C)"
      ∧ (handleFormSubmit p t2).btn.styleOpacity = "1"
      ∧ ∀ f ∈ (handleFormSubmit p t2).form.fields, f = "")
    ∧ ((handleFormSubmit p t3).btn.text = "Enviar Mensaje"
      ∧ (handleFormSubmit p t3).btn.disabled = false
      ∧ (handleFormSubmit p t3).btn.styleBackground = "") := by
  have e1 : handleFormSubmit p t1 = sendingStep p := by
    unfold handleFormSubmit
    rw [if_pos h1b]
  have e2 : handleFormSubmit p t2 = sentStep (sendingStep p) := by
    unfold handleFormSubmit
    rw [if_neg (by linarith), if_pos (by norm_num; linarith)]
  have e3 : handleFormSubmit p t3 = idleStep (sentStep (sendingStep p)) := by
    unfold handleFormSubmit
    rw [if_neg (by linarith), if_neg (by norm_num; linarith)]
  rw [e1, e2, e3]
  refine ⟨⟨rfl, rfl, rfl⟩, ⟨rfl, rfl, rfl, ?_⟩, rfl, rfl, rfl⟩
  intro f hf
  simp only [sentStep, List.mem_map] at hf
  obtain ⟨a, -, h⟩ := hf
  exact h.symm

/-- C7 witness: a concrete idle page sampled at 0 ms, 1200 ms and 4200 ms. -/
theorem form_submit_timeline_witness :
    ((0 : ℚ) ≤ 0 ∧ (0 : ℚ) < 1200 ∧ (1200 : ℚ) ≤ 1200 ∧ (1200 : ℚ) < 4200
      ∧ (4200 : ℚ) ≤ 4200)
    ∧ (((handleFormSubmit ⟨⟨"Enviar Mensaje", false, "", ""⟩, ⟨["hola"]⟩⟩ 0).btn.text = "Enviando..."
        ∧ (handleFormSubmit ⟨⟨"Enviar Mensaje", false, "", ""⟩, ⟨["hola"]⟩⟩ 0).btn.disabled = true
        ∧ (handleFormSubmit ⟨⟨"Enviar Mensaje", false, "", ""⟩, ⟨["hola"]⟩⟩ 0).btn.styleOpacity = "0.7")
      ∧ ((handleFormSubmit ⟨⟨"Enviar Mensaje", false, "", ""⟩, ⟨["hola"]⟩⟩ 1200).btn.text = "✅ Mensaje Enviado"
        ∧ (handleFormSubmit ⟨⟨"Enviar Mensaje", false, "", ""⟩, ⟨["hola"]⟩⟩ 1200).btn.styleBackground =
            "linear-gradient(135deg, #4CAF50, #388E3C)"
        ∧ (handleFormSubmit ⟨⟨"Enviar Mensaje", false, "", ""⟩, ⟨["hola"]⟩⟩ 1200).btn.styleOpacity = "1"
        ∧ ∀ f ∈ (handleFormSubmit ⟨⟨"Enviar Mensaje", false, "", ""⟩, ⟨["hola"]⟩⟩ 1200).form.fields, f = "")
      ∧ ((handleFormSubmit ⟨⟨"Enviar Mensaje", false, "", ""⟩, ⟨["hola"]⟩⟩ 4200).btn.text = "Enviar Mensaje"
        ∧ (handleFormSubmit ⟨⟨"Enviar Mensaje", false, "", ""⟩, ⟨["hola"]⟩⟩ 4200).btn.disabled = false
        ∧ (handleFormSubmit ⟨⟨"Enviar Mensaje", false, "", ""⟩, ⟨["hola"]⟩⟩ 4200).btn.styleBackground = "")) :=
  ⟨⟨by norm_num, by norm_num, by norm_num, by norm_num, by norm_num⟩,
    form_submit_timeline ⟨⟨"Enviar Mensaje", false, "", ""⟩, ⟨["hola"]⟩⟩ 0 1200 4200
      (by norm_num) (by norm_num) (by norm_num) (by norm_num) (by norm_num)⟩

/-- C10: after the full cycle (t ≥ 4200 ms), starting from a button with no
inline background and not disabled, the background and disabled flag equal
their pre-submission values and the text reverts, but the inline opacity
remains "1" (set during the Sending → Sent transition and never cleared);
the idle-reversion step touches nothing else: it preserves the opacity and
the form fields of the state it receives. -/
theorem form_idle_residual_opacity (p : FormPage) (t : ℚ) (ht : 4200 ≤ t)
    (hbg : p.btn.styleBackground = "") (hdis : p.btn.disabled = false) :
    (handleFormSubmit p t).btn.styleBackground = p.btn.styleBackground
    ∧ (handleFormSubmit p t).btn.disabled = p.btn.disabled
    ∧ (handleFormSubmit p t).btn.text = "Enviar Mensaje"
    ∧ (handleFormSubmit p t).btn.styleOpacity = "1"
    ∧ (∀ q : FormPage, (idleStep q).btn.styleOpacity = q.btn.styleOpacity
        ∧ (idleStep q).form = q.form)
    ∧ (handleFormSubmit p t).form = (sentStep (sendingStep p)).form := by
  have e3 : handleFormSubmit p t = idleStep (sentStep (sendingStep p)) := by
    unfold handleFormSubmit
    rw [if_neg (by linarith), if_neg (by norm_num; linarith)]
  rw [e3, hbg, hdis]
  exact ⟨rfl, rfl, rfl, rfl, fun q => ⟨rfl, rfl⟩, rfl⟩

/-- C10 witness: a concrete pre-submission page with inline opacity "0.9"
sampled at 5000 ms. -/
theorem form_idle_residual_opacity_witness :
    ((4200 : ℚ) ≤ 5000
      ∧ (⟨⟨"Enviar Mensaje", false, "0.9", ""⟩, ⟨["x"]⟩⟩ : FormPage).btn.styleBackground = ""
      ∧ (⟨⟨"Enviar Mensaje", false, "0.9", ""⟩, ⟨["x"]⟩⟩ : FormPage).btn.disabled = false)
    ∧ ((handleFormSubmit ⟨⟨"Enviar Mensaje", false, "0.9", ""⟩, ⟨["x"]⟩⟩ 5000).btn.styleBackground =
        (⟨⟨"Enviar Mensaje", false, "0.9", ""⟩, ⟨["x"]⟩⟩ : FormPage).btn.styleBackground
      ∧ (handleFormSubmit ⟨⟨"Enviar Mensaje", false, "0.9", ""⟩, ⟨["x"]⟩⟩ 5000).btn.disabled =
        (⟨⟨"Enviar Mensaje", false, "0.9", ""⟩, ⟨["x"]⟩⟩ : FormPage).btn.disabled
      ∧ (handleFormSubmit ⟨⟨"Enviar Mensaje", false, "0.9", ""⟩, ⟨["x"]⟩⟩ 5000).btn.text = "Enviar Mensaje"
      ∧ (handleFormSubmit ⟨⟨"Enviar Mensaje", false, "0.9", ""⟩, ⟨["x"]⟩⟩ 5000).btn.styleOpacity = "1"
      ∧ (∀ q : FormPage, (idleStep q).btn.styleOpacity = q.btn.styleOpacity
          ∧ (idleStep q).form = q.form)
      ∧ (handleFormSubmit ⟨⟨"Enviar Mensaje", false, "0.9", ""⟩, ⟨["x"]⟩⟩ 5000).form =
          (sentStep (sendingStep ⟨⟨"Enviar Mensaje", false, "0.9", ""⟩, ⟨["x"]⟩⟩)).form) :=
  ⟨⟨by norm_num, rfl, rfl⟩,
    form_idle_residual_opacity ⟨⟨"Enviar Mensaje", false, "0.9", ""⟩, ⟨["x"]⟩⟩ 5000
      (by norm_num) rfl rfl⟩

/-- C8: every component, when a required element or collection is missing,
returns early without raising an exception and without changing any state:
the navbar watcher, the reveal observer, the counter animator, the mobile
menu, and the form handler. -/
theorem missing_elements_silent_noop (y : ℚ) (elements counters : List ℕ)
    (he : elements = []) (hc : counters = []) (s : MenuState)
    (toggle links : Option Unit) (hml : toggle = none ∨ links = none)
    (btn : Option SubmitButton) (form : Option ContactForm)
    (hbf : btn = none ∨ form = none) (t : ℚ) :
    initNavbar none y = Except.ok none
    ∧ initScrollAnimations elements = Except.ok none
    ∧ initCounterAnimations counters = Except.ok none
    ∧ initMobileMenu toggle links s = Except.ok (s, false)
    ∧ handleFormSubmitGuarded btn form t = Except.ok (btn, form) := by
  subst he hc
  refine ⟨rfl, rfl, rfl, ?_, ?_⟩
  · rcases hml with h | h
    · subst h
      cases links <;> rfl
    · subst h
      cases toggle <;> rfl
  · rcases hbf with h | h
    · subst h
      cases form <;> rfl
    · subst h
      cases btn <;> rfl

/-- C8 witness: every element missing at once. -/
theorem missing_elements_silent_noop_witness :
    (([] : List ℕ) = [] ∧ ([] : List ℕ) = []
      ∧ ((none : Option Unit) = none ∨ (some () : Option Unit) = none)
      ∧ ((none : Option SubmitButton) = none ∨ (none : Option ContactForm) = none))
    ∧ (initNavbar none 0 = Except.ok none
      ∧ initScrollAnimations [] = Except.ok none
      ∧ initCounterAnimations [] = Except.ok none
      ∧ initMobileMenu none (some ()) ⟨false, false⟩ = Except.ok (⟨false, false⟩, false)
      ∧ handleFormSubmitGuarded none none 0 = Except.ok (none, none)) :=
  ⟨⟨rfl, rfl, Or.inl rfl, Or.inl rfl⟩,
    missing_elements_silent_noop 0 [] [] rfl rfl ⟨false, false⟩ none (some ())
      (Or.inl rfl) none none (Or.inl rfl) 0⟩

/-- C9: a missing target attribute parses to the NaN state, and whenever the
attribute fails to parse as an integer, every frame of the animation writes
the text "NaN". -/
theorem nan_target_renders_nan (attr : Option String)
    (h : parseTargetAttr attr = none) (p : ℚ) :
    parseTargetAttr none = none
    ∧ frameText (parseTargetAttr attr) p = "NaN" := by
  refine ⟨rfl, ?_⟩
  rw [h]
  rfl

/-- C9 witness: the non-numeric attribute value "abc" at progress 1/2. -/
theorem nan_target_renders_nan_witness :
    parseTargetAttr (some "abc") = none
    ∧ (parseTargetAttr none = none
      ∧ frameText (parseTargetAttr (some "abc")) (1 / 2) = "NaN") :=
  ⟨rfl, nan_target_renders_nan (some "abc") rfl (1 / 2)⟩
